import Mathlib

/-!
Shallow embedding of the intent-routed object-generation endpoints of this
repository (`app/api/stream-object/route.ts` and
`app/api/generate-object-smart/route.ts`), and proofs of the claims of the spec
about them.

The external generation backend (the `generateObject` / `streamObject` /
`generateText` calls of the AI SDK) is an external collaborator: it is
modelled by oracle parameters (`Except Unit _` outcomes and a `GenStream`
of partial objects), while everything the route handlers themselves do —
body destructuring, prompt interpolation, the classification call, the
switch dispatch over labels, the stream framing and the error paths — is
translated from the source.
-/

namespace SObj

/-- JSON values, as produced by `JSON.parse` / consumed by `JSON.stringify`.
Numbers are modelled as integers (the numeric fields of the schemas in the
repo carry integral example values; fractional values are irrelevant to
every claim). -/
inductive Json where
  | null : Json
  | bool (b : Bool) : Json
  | num (n : Int) : Json
  | str (s : String) : Json
  | arr (elems : List Json) : Json
  | obj (fields : List (String × Json)) : Json

/-- First value bound to a key in the field list of a JSON object
(JS object property lookup). -/
def lookupJ (k : String) : List (String × Json) → Option Json
  | [] => none
  | (k', v) :: rest => if k' = k then some v else lookupJ k rest

/-- One character of `JSON.stringify` string escaping. The common JSON
escapes are handled; other characters pass through unchanged. -/
def escapeChar (c : Char) : String :=
  if c = '"' then "\\\""
  else if c = '\\' then "\\\\"
  else if c = '\n' then "\\n"
  else if c = '\r' then "\\r"
  else if c = '\t' then "\\t"
  else if c = '\x08' then "\\b"
  else if c = '\x0c' then "\\f"
  else String.singleton c

/-- The `JSON.stringify` string escaping, over the character list. -/
def escapeChars : List Char → String
  | [] => ""
  | c :: cs => escapeChar c ++ escapeChars cs

/-- Comma-separated concatenation (the separator `JSON.stringify` puts
between array elements and object fields). -/
def commaSep : List String → String
  | [] => ""
  | [s] => s
  | s :: rest => s ++ "," ++ commaSep rest

/-- Decimal digit character. -/
def digitChar (n : Nat) : Char :=
  if n = 0 then '0' else if n = 1 then '1' else if n = 2 then '2'
  else if n = 3 then '3' else if n = 4 then '4' else if n = 5 then '5'
  else if n = 6 then '6' else if n = 7 then '7' else if n = 8 then '8' else '9'

/-- Little-endian decimal digit characters of a number (empty at zero). -/
def natDigitsRev : Nat → List Char
  | 0 => []
  | n + 1 => digitChar ((n + 1) % 10) :: natDigitsRev ((n + 1) / 10)
decreasing_by exact Nat.div_lt_self (Nat.succ_pos n) (by omega)

/-- Decimal rendering of a natural number. -/
def natToString (n : Nat) : String :=
  if n = 0 then "0" else String.mk (natDigitsRev n).reverse

/-- Decimal rendering of an integer — JS number stringification at the
integral values this model carries. -/
def intToString : Int → String
  | .ofNat m => natToString m
  | .negSucc m => "-" ++ natToString (m + 1)

/-- The `JSON.stringify` compact JSON serialization. -/
def Json.encode : Json → String
  | .null => "null"
  | .bool b => cond b "true" "false"
  | .num n => intToString n
  | .str s => "\"" ++ escapeChars s.data ++ "\""
  | .arr elems =>
      "[" ++ commaSep (elems.attach.map (fun x => Json.encode x.val)) ++ "]"
  | .obj fields =>
      "\x7b" ++
        commaSep (fields.attach.map
          (fun kv => "\"" ++ escapeChars kv.val.1.data ++ "\":" ++ Json.encode kv.val.2)) ++
      "\x7d"
decreasing_by
  · have := List.sizeOf_lt_of_mem x.property
    simp_wf
    omega
  · have h1 := List.sizeOf_lt_of_mem kv.property
    obtain ⟨⟨a, b⟩, hm⟩ := kv
    simp_wf
    simp only [Prod.mk.sizeOf_spec] at h1
    omega

/-- The discriminated stream-frame envelope of the relay protocol
(`{ type: "intent" | "partial" | "complete" | "error", ...payload }`).
`partialObj` models the `partial` frame (the name avoids a Lean keyword);
the `error` frame appears in the protocol taxonomy (and in the notes of the repo), though the `stream-object` route never constructs one. -/
inductive Frame where
  | intent (label : String) : Frame
  | partialObj (data : Json) : Frame
  | complete : Frame
  | error (e : Json) : Frame

/-- The `type` discriminator of a frame. -/
def Frame.ty : Frame → String
  | .intent _ => "intent"
  | .partialObj _ => "partial"
  | .complete => "complete"
  | .error _ => "error"

/-- The JSON document serialized for each frame
(`route.ts` lines 133-151, and the error-frame shape of the notes). -/
def Frame.toJson : Frame → Json
  | .intent label => .obj [("type", .str "intent"), ("intent", .str label)]
  | .partialObj data => .obj [("type", .str "partial"), ("data", data)]
  | .complete => .obj [("type", .str "complete")]
  | .error e => .obj [("type", .str "error"), ("error", e)]

/-- What the route enqueues for one frame:
`encoder.encode(JSON.stringify(frameDoc) + '\n')`. -/
def encodeFrame (f : Frame) : String :=
  Json.encode f.toJson ++ "\n"

/-- The entire bytes written to the transport for a frame list. -/
def streamBody (fs : List Frame) : String :=
  String.join (fs.map encodeFrame)

/-- Outcome of the `partialObjectStream` async iteration, as visible to the
relay loop: the snapshots the iterator yielded, and whether the iteration
then raised (`fails = true`) instead of finishing normally. The backend
itself is an external collaborator (spec section 4.3); this is its
interface as consumed by `for await (const partialObject of
result.partialObjectStream)`. -/
structure GenStream where
  partials : List Json
  fails : Bool

/-- How the `ReadableStream` terminates: `controller.close()` (clean) or
`controller.error(...)` (abrupt abort, no further bytes). -/
inductive StreamEnd where
  | closed : StreamEnd
  | errored : StreamEnd

/-- A fully-consumed outbound stream: the frames that were enqueued, and
how the stream terminated. -/
structure StreamResult where
  frames : List Frame
  ending : StreamEnd

/-- The `for await` relay loop body (`route.ts` lines 140-146): one
`partial` frame enqueued per snapshot received, in arrival order. -/
def pumpPartials : List Json → List Frame
  | [] => []
  | o :: os => Frame.partialObj o :: pumpPartials os

/-- The `start(controller)` callback of the outbound `ReadableStream`
(`route.ts` lines 130-158): enqueue the `intent` frame, relay the partial
snapshots, then either enqueue `complete` and close, or — when the
iteration raised — hit the `catch` block, which calls
`controller.error(error)` and enqueues nothing further. -/
def relay (intentLabel : String) (g : GenStream) : StreamResult :=
  if g.fails then
    ⟨Frame.intent intentLabel :: pumpPartials g.partials, StreamEnd.errored⟩
  else
    ⟨Frame.intent intentLabel :: pumpPartials g.partials ++ [Frame.complete],
      StreamEnd.closed⟩

/-- An HTTP response produced by a route handler: either `Response.json`
with a status, or the chunked streaming `Response`. -/
inductive HttpResponse where
  | json (status : Nat) (body : Json) : HttpResponse
  | stream (r : StreamResult) : HttpResponse

/-- One call to the external generation backend, as made by the handlers:
the enum-constrained classification call (with its candidate labels and
interpolated prompt text), a schema-bound `generateObject` or
`streamObject` call (tagged by the dispatched label whose zod schema it
receives), or a plain `generateText` call (no schema). -/
inductive BackendCall where
  | classify (candidates : List String) (promptText : String) : BackendCall
  | objectGen (schemaLabel : String) : BackendCall
  | streamGen (schemaLabel : String) : BackendCall
  | textGen : BackendCall

/-- Is a backend call the enum-constrained classification call? -/
def BackendCall.isClassify : BackendCall → Bool
  | .classify _ _ => true
  | _ => false

/-- Is a backend call a generation (dispatch-phase) call? -/
def BackendCall.isGen : BackendCall → Bool
  | .classify _ _ => false
  | _ => true

/-- JS template-literal interpolation of the destructured `prompt` value:
a missing property is `undefined` and stringifies to "undefined". -/
def jsInterp : Option String → String
  | some s => s
  | none => "undefined"

/-- The fixed candidate label set of `stream-object` (`route.ts` line 15). -/
def streamEnum : List String := ["recipe", "person", "product", "story"]

/-- The fixed candidate label set of `generate-object-smart`
(`route.ts` line 15). -/
def smartEnum : List String := ["recipe", "person", "general-question", "product"]

/-- The classifier prompt template of `stream-object`
(`route.ts` lines 16-21), with the `prompt` of the request interpolated. -/
def soClassifierPrompt (p : Option String) : String :=
  "Classify what the user is asking for: \"" ++ jsInterp p ++ "\"\n" ++
  "      \n" ++
  "      - recipe: User wants a recipe or cooking instructions\n" ++
  "      - person: User is asking about a person\n" ++
  "      - product: User wants product information\n" ++
  "      - story: User wants a creative story"

/-- The classifier prompt template of `generate-object-smart`
(`route.ts` lines 16-21), with the `prompt` of the request interpolated. -/
def gsClassifierPrompt (p : Option String) : String :=
  "Classify what the user is asking for: \"" ++ jsInterp p ++ "\"\n" ++
  "      \n" ++
  "      - recipe: User wants a recipe or cooking instructions\n" ++
  "      - person: User is asking about a person\n" ++
  "      - general-question: User is asking a general knowledge question\n" ++
  "      - product: User wants product information"

/-- The 500-error body of the catch-all of `stream-object` (`route.ts` 170-173). -/
def soErr500 : Json := .obj [("error", .str "Failed to stream object")]

/-- The 400 body of the `default:` branch of `stream-object` (`route.ts` 124). -/
def soErr400 : Json := .obj [("error", .str "Unknown intent")]

/-- The `POST` handler of `app/api/stream-object/route.ts`, parameterized
by its external collaborators: `body` is the outcome of `req.json()`
projected to the destructured `prompt` property (`none` when absent),
`cls` the outcome of the enum-constrained classification call, and `g` the
partial-object stream the dispatched `streamObject` call will produce.
Returns the response together with the trace of backend calls made. -/
def streamObjectPOST (body : Except Unit (Option String))
    (cls : Except Unit String) (g : GenStream) :
    HttpResponse × List BackendCall :=
  match body with
  | .error _ => (HttpResponse.json 500 soErr500, [])
  | .ok p =>
    let c := BackendCall.classify streamEnum (soClassifierPrompt p)
    match cls with
    | .error _ => (HttpResponse.json 500 soErr500, [c])
    | .ok intent =>
      if intent = "recipe" then
        (HttpResponse.stream (relay intent g), [c, BackendCall.streamGen "recipe"])
      else if intent = "person" then
        (HttpResponse.stream (relay intent g), [c, BackendCall.streamGen "person"])
      else if intent = "product" then
        (HttpResponse.stream (relay intent g), [c, BackendCall.streamGen "product"])
      else if intent = "story" then
        (HttpResponse.stream (relay intent g), [c, BackendCall.streamGen "story"])
      else
        (HttpResponse.json 400 soErr400, [c])

/-- The 500-error body of the catch-all of `generate-object-smart`
(`route.ts` 116-119). -/
def gsErr500 : Json := .obj [("error", .str "Failed to generate response")]

/-- The 400 body of the `default:` branch of `generate-object-smart`
(`route.ts` 109-112). -/
def gsErr400 : Json := .obj [("error", .str "Could not determine intent")]

/-- The `POST` handler of `app/api/generate-object-smart/route.ts`,
parameterized by its external collaborators: `body` as in
`streamObjectPOST`, `cls` the classification outcome, `genObj` the outcome
of the schema-bound `generateObject` call of the dispatched branch, and
`genText` the outcome of the `generateText` call of the `general-question`
branch. Returns the response with the backend-call trace. -/
def generateObjectSmartPOST (body : Except Unit (Option String))
    (cls : Except Unit String) (genObj : Except Unit Json)
    (genText : Except Unit String) : HttpResponse × List BackendCall :=
  match body with
  | .error _ => (HttpResponse.json 500 gsErr500, [])
  | .ok p =>
    let c := BackendCall.classify smartEnum (gsClassifierPrompt p)
    match cls with
    | .error _ => (HttpResponse.json 500 gsErr500, [c])
    | .ok intent =>
      if intent = "recipe" then
        match genObj with
        | .ok o =>
            (HttpResponse.json 200 (.obj [("type", .str "recipe"), ("data", o)]),
             [c, BackendCall.objectGen "recipe"])
        | .error _ => (HttpResponse.json 500 gsErr500, [c, BackendCall.objectGen "recipe"])
      else if intent = "person" then
        match genObj with
        | .ok o =>
            (HttpResponse.json 200 (.obj [("type", .str "person"), ("data", o)]),
             [c, BackendCall.objectGen "person"])
        | .error _ => (HttpResponse.json 500 gsErr500, [c, BackendCall.objectGen "person"])
      else if intent = "general-question" then
        match genText with
        | .ok t =>
            (HttpResponse.json 200
               (.obj [("type", .str "general-question"),
                      ("data", .obj [("answer", .str t)])]),
             [c, BackendCall.textGen])
        | .error _ => (HttpResponse.json 500 gsErr500, [c, BackendCall.textGen])
      else if intent = "product" then
        match genObj with
        | .ok o =>
            (HttpResponse.json 200 (.obj [("type", .str "product"), ("data", o)]),
             [c, BackendCall.objectGen "product"])
        | .error _ => (HttpResponse.json 500 gsErr500, [c, BackendCall.objectGen "product"])
      else
        (HttpResponse.json 400 gsErr400, [c])

/-! ### Schema validators

One Bool-valued validator per zod schema of `stream-object/route.ts`,
translated field by field. The default zod object mode accepts (and strips)
unknown keys, so a validator checks that every declared required field is
present with the declared type; `.optional()` fields may be absent. -/

/-- Is the JSON value a string? (`z.string()`) -/
def isStr : Json → Bool
  | .str _ => true
  | _ => false

/-- Is the JSON value a number? (`z.number()`) -/
def isNum : Json → Bool
  | .num _ => true
  | _ => false

/-- Required field of the given shape. -/
def reqField (name : String) (p : Json → Bool) : Json → Bool
  | .obj fs => match lookupJ name fs with
    | some v => p v
    | none => false
  | _ => false

/-- Optional field (`.optional()`): absent, or of the given shape. -/
def optField (name : String) (p : Json → Bool) : Json → Bool
  | .obj fs => match lookupJ name fs with
    | some v => p v
    | none => true
  | _ => false

/-- Array of values of the given shape (`z.array(...)`). -/
def isArrOf (p : Json → Bool) : Json → Bool
  | .arr xs => xs.all p
  | _ => false

/-- String drawn from an enumeration (`z.enum([...])`). -/
def isEnumOf (vals : List String) : Json → Bool
  | .str s => vals.contains s
  | _ => false

/-- Number within inclusive bounds (`z.number().min(lo).max(hi)`). -/
def isNumRange (lo hi : Int) : Json → Bool
  | .num n => lo ≤ n && n ≤ hi
  | _ => false

/-- The `ingredients` element schema (`stream-object/route.ts` 43-47). -/
def ingredientValid (j : Json) : Bool :=
  reqField "name" isStr j && reqField "amount" isStr j && reqField "unit" isStr j

/-- The `recipe` schema (`stream-object/route.ts` 34-52). -/
def recipeValid (j : Json) : Bool :=
  reqField "recipe" (fun r =>
    reqField "name" isStr r && reqField "cuisine" isStr r &&
    reqField "difficulty" (isEnumOf ["easy", "medium", "hard"]) r &&
    reqField "prepTime" isStr r && reqField "cookTime" isStr r &&
    reqField "servings" isNum r &&
    reqField "ingredients" (isArrOf ingredientValid) r &&
    reqField "steps" (isArrOf isStr) r &&
    reqField "tags" (isArrOf isStr) r) j

/-- The `person` schema (`stream-object/route.ts` 61-72). -/
def personValid (j : Json) : Bool :=
  reqField "person" (fun r =>
    reqField "name" isStr r && reqField "profession" isStr r &&
    reqField "nationality" isStr r && optField "birthYear" isNum r &&
    reqField "knownFor" (isArrOf isStr) r &&
    reqField "achievements" (isArrOf isStr) r &&
    reqField "biography" isStr r &&
    reqField "funFacts" (isArrOf isStr) r) j

/-- The `product` schema (`stream-object/route.ts` 81-92). -/
def productValid (j : Json) : Bool :=
  reqField "product" (fun r =>
    reqField "name" isStr r && reqField "category" isStr r &&
    reqField "price" isNum r && reqField "description" isStr r &&
    reqField "features" (isArrOf isStr) r &&
    reqField "pros" (isArrOf isStr) r &&
    reqField "cons" (isArrOf isStr) r &&
    reqField "rating" (isNumRange 1 5) r) j

/-- The `characters` element schema (`stream-object/route.ts` 106-112). -/
def characterValid (j : Json) : Bool :=
  reqField "name" isStr j && reqField "role" isStr j && reqField "description" isStr j

/-- The `story` schema (`stream-object/route.ts` 101-117). -/
def storyValid (j : Json) : Bool :=
  reqField "story" (fun r =>
    reqField "title" isStr r && reqField "genre" isStr r &&
    reqField "setting" isStr r &&
    reqField "characters" (isArrOf characterValid) r &&
    reqField "plot" isStr r && reqField "twist" isStr r &&
    optField "moralLesson" isStr r) j

/-- The schema registry of `stream-object`: which validator the `switch`
statement binds to each label; labels outside the four `case`s have no
schema (the `default:` branch). -/
def streamSchemaFor : String → Option (Json → Bool)
  | "recipe" => some recipeValid
  | "person" => some personValid
  | "product" => some productValid
  | "story" => some storyValid
  | _ => none

/-- The `data` payloads of the `partial` frames of a frame list, in
stream order. -/
def partialObjects : List Frame → List Json
  | [] => []
  | .partialObj d :: rest => d :: partialObjects rest
  | _ :: rest => partialObjects rest

/-- Number of enum-constrained classification calls in a backend trace. -/
def countClassify (tr : List BackendCall) : Nat :=
  (tr.filter BackendCall.isClassify).length

/-! ### Monotonic refinement

Modelled from the spec: the Partial Object invariant of spec sections 3
and 8 — each subsequent snapshot has populated fields that are a superset
of those of the previous snapshot, and no scalar or array-element value
present in an earlier snapshot is altered or removed in a later one";
"arrays only grow or have elements completed, never shrink or reorder".
This contract belongs to the external structured-generation backend
(spec section 4.3), which the repository consumes but does not implement,
so it is a hypothesis on the input of the relay, not a theorem about code. -/

mutual

/-- Relation `refinesB old new`: `new` is a superset-refinement of `old`. -/
def refinesB : Json → Json → Bool
  | .null, .null => true
  | .bool a, .bool b => a == b
  | .num a, .num b => a == b
  | .str a, .str b => a == b
  | .arr xs, .arr ys => refinesArr xs ys
  | .obj fs, .obj gs => refinesFields fs gs
  | _, _ => false

/-- Element-wise refinement of an array prefix: the old array is a prefix
refinement of the new one (it may only have grown at the end). -/
def refinesArr : List Json → List Json → Bool
  | [], _ => true
  | _ :: _, [] => false
  | x :: xs, y :: ys => refinesB x y && refinesArr xs ys

/-- Every field populated in the old object is still present, refined, in
the new object. -/
def refinesFields : List (String × Json) → List (String × Json) → Bool
  | [], _ => true
  | (k, v) :: fs, gs =>
      (match lookupJ k gs with
       | some w => refinesB v w
       | none => false) && refinesFields fs gs

end

/-- Propositional form of the refinement order on snapshots. -/
def Refines (a b : Json) : Prop := refinesB a b = true

/-! ### Basic lemmas about the relay and the line framing -/

/-- A string with no raw newline character: the property that makes each
frame occupy exactly one line of the newline-delimited body. -/
def noNL (s : String) : Prop := '\n' ∉ s.data

instance noNLDec (s : String) : Decidable (noNL s) :=
  inferInstanceAs (Decidable ('\n' ∉ s.data))

theorem noNL_append {a b : String} (ha : noNL a) (hb : noNL b) :
    noNL (a ++ b) := by
  simp only [noNL, String.data_append, List.mem_append] at *
  tauto

theorem noNL_singleton {c : Char} (h : c ≠ '\n') : noNL (String.singleton c) := by
  intro hc
  have hm : '\n' = c := by
    simpa [String.singleton] using hc
  exact h hm.symm

theorem noNL_escapeChar (c : Char) : noNL (escapeChar c) := by
  unfold escapeChar
  split_ifs with h1 h2 h3 h4 h5 h6 h7
  · decide
  · decide
  · decide
  · decide
  · decide
  · decide
  · decide
  · exact noNL_singleton h3

theorem noNL_escapeChars (cs : List Char) : noNL (escapeChars cs) := by
  induction cs with
  | nil => decide
  | cons c cs ih => exact noNL_append (noNL_escapeChar c) ih

theorem noNL_commaSep {l : List String} (h : ∀ s ∈ l, noNL s) :
    noNL (commaSep l) := by
  induction l with
  | nil => decide
  | cons s rest ih =>
    cases rest with
    | nil => simpa [commaSep] using h s (by simp)
    | cons t ts =>
      have he : commaSep (s :: t :: ts) = s ++ "," ++ commaSep (t :: ts) := rfl
      rw [he]
      exact noNL_append (noNL_append (h s (by simp)) (by decide))
        (ih (fun u hu => h u (by simp [hu])))

theorem digitChar_ne_nl (n : Nat) : digitChar n ≠ '\n' := by
  unfold digitChar
  split_ifs <;> decide

theorem noNL_mk_of_forall {l : List Char} (h : ∀ c ∈ l, c ≠ '\n') :
    noNL (String.mk l) := by
  intro hc
  exact h _ hc rfl

theorem natDigitsRev_ne_nl (n : Nat) : ∀ c ∈ natDigitsRev n, c ≠ '\n' := by
  induction n using natDigitsRev.induct with
  | case1 =>
    intro c hc
    rw [natDigitsRev] at hc
    cases hc
  | case2 n ih =>
    intro c hc
    rw [natDigitsRev] at hc
    rcases List.mem_cons.mp hc with rfl | hc
    · exact digitChar_ne_nl _
    · exact ih c hc

theorem noNL_natToString (n : Nat) : noNL (natToString n) := by
  unfold natToString
  split_ifs
  · decide
  · exact noNL_mk_of_forall (by
      intro c hc
      exact natDigitsRev_ne_nl n c (List.mem_reverse.mp hc))

theorem noNL_intToString (n : Int) : noNL (intToString n) := by
  cases n with
  | ofNat m => exact noNL_natToString m
  | negSucc m => exact noNL_append (by decide) (noNL_natToString (m + 1))

/-- Every serialized JSON document is newline-free: frames really are
single lines of the newline-delimited body. -/
theorem noNL_encode (j : Json) : noNL (Json.encode j) := by
  induction j using Json.encode.induct with
  | case1 => rw [Json.encode]; decide
  | case2 b => rw [Json.encode]; cases b <;> decide
  | case3 n => rw [Json.encode]; exact noNL_intToString n
  | case4 s =>
    rw [Json.encode]
    exact noNL_append (noNL_append (by decide) (noNL_escapeChars s.data)) (by decide)
  | case5 elems ih =>
    rw [Json.encode]
    refine noNL_append (noNL_append (by decide) (noNL_commaSep ?_)) (by decide)
    intro s hs
    simp only [List.mem_map, List.mem_attach, true_and] at hs
    obtain ⟨x, rfl⟩ := hs
    exact ih x
  | case6 fields ih =>
    rw [Json.encode]
    refine noNL_append (noNL_append (by decide) (noNL_commaSep ?_)) (by decide)
    intro s hs
    simp only [List.mem_map, List.mem_attach, true_and] at hs
    obtain ⟨kv, rfl⟩ := hs
    exact noNL_append
      (noNL_append (noNL_append (by decide) (noNL_escapeChars kv.val.1.data)) (by decide))
      (ih kv)

/-- Each enqueued frame is one newline-terminated JSON document with no
interior newline. -/
theorem encodeFrame_line (f : Frame) :
    ∃ doc, encodeFrame f = doc ++ "\n" ∧ noNL doc :=
  ⟨Json.encode f.toJson, rfl, noNL_encode f.toJson⟩

/-- The relay loop enqueues exactly one `partial` frame per received
snapshot, in arrival order. -/
theorem pumpPartials_eq_map (l : List Json) :
    pumpPartials l = l.map Frame.partialObj := by
  induction l with
  | nil => rfl
  | cons o os ih => rw [pumpPartials, ih, List.map_cons]

theorem partialObjects_append (xs ys : List Frame) :
    partialObjects (xs ++ ys) = partialObjects xs ++ partialObjects ys := by
  induction xs with
  | nil => rfl
  | cons f fs ih =>
    cases f <;> simp [partialObjects, ih]

theorem partialObjects_pump (l : List Json) :
    partialObjects (pumpPartials l) = l := by
  induction l with
  | nil => rfl
  | cons o os ih => rw [pumpPartials, partialObjects, ih]

/-- The `data` payloads of the relayed `partial` frames are exactly the
snapshots the generator yielded, unchanged and in order — whether or not
the iteration later failed. -/
theorem partialObjects_relay (i : String) (g : GenStream) :
    partialObjects (relay i g).frames = g.partials := by
  unfold relay
  split_ifs <;>
    simp [partialObjects, partialObjects_append, partialObjects_pump]

/-- Relayed streams always open with the `intent` frame. -/
theorem relay_head (i : String) (g : GenStream) :
    (relay i g).frames.head? = some (Frame.intent i) := by
  unfold relay
  split_ifs <;> rfl

/-- Dispatch of `stream-object` on a registered label: the handler returns the
relayed stream and the trace is the classification call followed by the
`streamObject` call carrying the schema of that label. -/
theorem so_dispatch (p : Option String) (g : GenStream) (l : String)
    (hl : l ∈ streamEnum) :
    streamObjectPOST (Except.ok p) (Except.ok l) g =
      (HttpResponse.stream (relay l g),
       [BackendCall.classify streamEnum (soClassifierPrompt p),
        BackendCall.streamGen l]) := by
  fin_cases hl <;> rfl

/-- Behavior of `stream-object` on a label outside the registry: HTTP 400, no
generation call. -/
theorem so_unknown (p : Option String) (g : GenStream) (l : String)
    (h1 : l ≠ "recipe") (h2 : l ≠ "person") (h3 : l ≠ "product")
    (h4 : l ≠ "story") :
    streamObjectPOST (Except.ok p) (Except.ok l) g =
      (HttpResponse.json 400 soErr400,
       [BackendCall.classify streamEnum (soClassifierPrompt p)]) := by
  simp [streamObjectPOST, h1, h2, h3, h4]

/-- Dispatch of `generate-object-smart` on a schema-bound label with a
successful generation. -/
theorem gs_obj_ok (p : Option String) (o : Json) (gt : Except Unit String)
    (l : String) (hl : l ∈ ["recipe", "person", "product"]) :
    generateObjectSmartPOST (Except.ok p) (Except.ok l) (Except.ok o) gt =
      (HttpResponse.json 200 (Json.obj [("type", Json.str l), ("data", o)]),
       [BackendCall.classify smartEnum (gsClassifierPrompt p),
        BackendCall.objectGen l]) := by
  fin_cases hl <;> rfl

/-- Dispatch of `generate-object-smart` on a schema-bound label with a failed
generation. -/
theorem gs_obj_err (p : Option String) (e : Unit) (gt : Except Unit String)
    (l : String) (hl : l ∈ ["recipe", "person", "product"]) :
    generateObjectSmartPOST (Except.ok p) (Except.ok l) (Except.error e) gt =
      (HttpResponse.json 500 gsErr500,
       [BackendCall.classify smartEnum (gsClassifierPrompt p),
        BackendCall.objectGen l]) := by
  fin_cases hl <;> rfl

/-- Behavior of `generate-object-smart` on `general-question`: plain text,
no schema-bound call. -/
theorem gs_gq (p : Option String) (go : Except Unit Json)
    (gt : Except Unit String) :
    generateObjectSmartPOST (Except.ok p) (Except.ok "general-question") go gt =
      (match gt with
       | .ok t =>
           HttpResponse.json 200
             (Json.obj [("type", Json.str "general-question"),
                        ("data", Json.obj [("answer", Json.str t)])])
       | .error _ => HttpResponse.json 500 gsErr500,
       [BackendCall.classify smartEnum (gsClassifierPrompt p),
        BackendCall.textGen]) := by
  cases gt <;> rfl

/-- Behavior of `generate-object-smart` on a label outside the registry: HTTP 400, no
generation call. -/
theorem gs_unknown (p : Option String) (go : Except Unit Json)
    (gt : Except Unit String) (l : String)
    (h1 : l ≠ "recipe") (h2 : l ≠ "person") (h3 : l ≠ "general-question")
    (h4 : l ≠ "product") :
    generateObjectSmartPOST (Except.ok p) (Except.ok l) go gt =
      (HttpResponse.json 400 gsErr400,
       [BackendCall.classify smartEnum (gsClassifierPrompt p)]) := by
  simp [generateObjectSmartPOST, h1, h2, h3, h4]

/-- The backend trace of `stream-object` always opens with the single
classification call (whenever the body parsed). -/
theorem so_head (p : Option String) (cls : Except Unit String) (g : GenStream) :
    (streamObjectPOST (Except.ok p) cls g).2.head? =
      some (BackendCall.classify streamEnum (soClassifierPrompt p)) := by
  cases cls with
  | error e => rfl
  | ok l =>
    by_cases hmem : l ∈ streamEnum
    · rw [so_dispatch p g l hmem]; rfl
    · simp only [streamEnum, List.mem_cons, List.not_mem_nil, or_false, not_or] at hmem
      obtain ⟨h1, h2, h3, h4⟩ := hmem
      rw [so_unknown p g l h1 h2 h3 h4]; rfl

/-- The backend trace of `generate-object-smart` always opens with the
single classification call (whenever the body parsed). -/
theorem gs_head (p : Option String) (cls : Except Unit String)
    (go : Except Unit Json) (gt : Except Unit String) :
    (generateObjectSmartPOST (Except.ok p) cls go gt).2.head? =
      some (BackendCall.classify smartEnum (gsClassifierPrompt p)) := by
  cases cls with
  | error e => rfl
  | ok l =>
    by_cases h1 : l = "recipe"
    · subst h1; cases go with
      | ok o => rw [gs_obj_ok p o gt "recipe" (by decide)]; rfl
      | error e => rw [gs_obj_err p e gt "recipe" (by decide)]; rfl
    by_cases h2 : l = "person"
    · subst h2; cases go with
      | ok o => rw [gs_obj_ok p o gt "person" (by decide)]; rfl
      | error e => rw [gs_obj_err p e gt "person" (by decide)]; rfl
    by_cases h3 : l = "general-question"
    · subst h3; rw [gs_gq p go gt]; rfl
    by_cases h4 : l = "product"
    · subst h4; cases go with
      | ok o => rw [gs_obj_ok p o gt "product" (by decide)]; rfl
      | error e => rw [gs_obj_err p e gt "product" (by decide)]; rfl
    rw [gs_unknown p go gt l h1 h2 h3 h4]; rfl

/-- The relay loop output passes every `partial` frame through the filter
on the `partial` discriminator. -/
theorem filter_pump (l : List Json) :
    (pumpPartials l).filter (fun f => f.ty == "partial") = pumpPartials l := by
  induction l with
  | nil => rfl
  | cons o os ih => rw [pumpPartials, List.filter_cons_of_pos rfl, ih]

/-- Serialized relay-loop output, element-wise. -/
theorem map_encode_pump (l : List Json) :
    (pumpPartials l).map encodeFrame =
      l.map (fun o =>
        Json.encode (Json.obj [("type", Json.str "partial"), ("data", o)]) ++ "\n") := by
  induction l with
  | nil => rfl
  | cons o os ih => rw [pumpPartials, List.map_cons, List.map_cons, ih]; rfl

/-- The frame list of a relayed stream, with the terminal `complete` frame
present exactly when the iteration did not raise. -/
theorem relay_frames (i : String) (g : GenStream) :
    (relay i g).frames =
      Frame.intent i ::
        (pumpPartials g.partials ++ if g.fails then [] else [Frame.complete]) := by
  unfold relay
  split_ifs <;> simp

/-! ### The claims -/

/-- C1: the `stream-object` route violates the no-silent-truncation
requirement. Evaluated at a failing input — classifier resolves `recipe`,
the partial-object iteration yields one snapshot and then raises — the
`catch` block calls `controller.error(error)`: the outbound stream ends in
the `errored` (abrupt abort) state, the enqueued frames are just the
`intent` frame and the relayed `partial` frame, and no `error`-typed frame
is ever enqueued, so the stream does not end with a well-formed terminal
`error` frame as the claim requires. -/
theorem c1_generator_failure_aborts_without_error_frame :
    (streamObjectPOST (Except.ok (some "Generate a spicy Thai curry recipe"))
        (Except.ok "recipe")
        ⟨[Json.obj [("recipe", Json.obj [("name", Json.str "Thai Red Curry")])]],
         true⟩).1 =
      HttpResponse.stream
        ⟨[Frame.intent "recipe",
          Frame.partialObj
            (Json.obj [("recipe", Json.obj [("name", Json.str "Thai Red Curry")])])],
         StreamEnd.errored⟩ ∧
    ([Frame.intent "recipe",
      Frame.partialObj
        (Json.obj [("recipe", Json.obj [("name", Json.str "Thai Red Curry")])])].all
      (fun f => f.ty != "error")) = true :=
  ⟨rfl, rfl⟩

/-- C2: for a registered label and a generator run that completes without
raising, the response is the stream whose frames are exactly one `intent`
frame first, the `partial` frames in order, then exactly one `complete`
frame, the stream closes cleanly, and every frame serializes to a single
newline-terminated JSON document with no interior newline. -/
theorem c2_success_frame_protocol (p : Option String) (l : String)
    (g : GenStream) (hl : l ∈ streamEnum) (hg : g.fails = false) :
    (streamObjectPOST (Except.ok p) (Except.ok l) g).1 =
      HttpResponse.stream
        ⟨Frame.intent l :: (g.partials.map Frame.partialObj ++ [Frame.complete]),
         StreamEnd.closed⟩ ∧
    ∀ f ∈ Frame.intent l :: (g.partials.map Frame.partialObj ++ [Frame.complete]),
      ∃ doc, encodeFrame f = doc ++ "\n" ∧ noNL doc := by
  refine ⟨?_, fun f _ => encodeFrame_line f⟩
  have hrelay : relay l g =
      ⟨Frame.intent l :: (g.partials.map Frame.partialObj ++ [Frame.complete]),
       StreamEnd.closed⟩ := by
    unfold relay
    rw [hg, pumpPartials_eq_map]
    rfl
  have hresp := congrArg Prod.fst (so_dispatch p g l hl)
  rw [hresp, hrelay]

/-- C2 witness: a concrete successful `recipe` run. -/
theorem c2_success_frame_protocol_witness :
    (streamObjectPOST (Except.ok (some "Generate a spicy Thai curry recipe"))
        (Except.ok "recipe")
        ⟨[Json.obj [("recipe", Json.obj [("name", Json.str "Thai Curry")])]],
         false⟩).1 =
      HttpResponse.stream
        ⟨Frame.intent "recipe" ::
          ([Json.obj [("recipe", Json.obj [("name", Json.str "Thai Curry")])]].map
             Frame.partialObj ++ [Frame.complete]),
         StreamEnd.closed⟩ ∧
    ∀ f ∈ Frame.intent "recipe" ::
        ([Json.obj [("recipe", Json.obj [("name", Json.str "Thai Curry")])]].map
           Frame.partialObj ++ [Frame.complete]),
      ∃ doc, encodeFrame f = doc ++ "\n" ∧ noNL doc :=
  c2_success_frame_protocol (some "Generate a spicy Thai curry recipe") "recipe"
    ⟨[Json.obj [("recipe", Json.obj [("name", Json.str "Thai Curry")])]], false⟩
    (by decide) rfl

/-- C6: the relay encoder emits exactly one `partial` frame per received
partial object, in generator emission order, dropping and reordering
nothing: the relayed `partial` payloads are exactly the emitted
sequence, and the serialized `partial` frames are the element-wise JSON
encoding (each newline-terminated) of that sequence. -/
theorem c6_partials_one_to_one (i : String) (g : GenStream) :
    partialObjects (relay i g).frames = g.partials ∧
    ((relay i g).frames.filter (fun f => f.ty == "partial")).map encodeFrame =
      g.partials.map (fun o =>
        Json.encode (Json.obj [("type", Json.str "partial"), ("data", o)]) ++ "\n") := by
  refine ⟨partialObjects_relay i g, ?_⟩
  have hstep : ∀ rest : List Frame,
      List.filter (fun f => f.ty == "partial") (Frame.intent i :: rest) =
        List.filter (fun f => f.ty == "partial") rest := fun _ => rfl
  rw [relay_frames, hstep, List.filter_append, filter_pump]
  have htail :
      ((if g.fails then [] else [Frame.complete]).filter
        (fun f => f.ty == "partial")) = [] := by
    split_ifs <;> rfl
  rw [htail, List.append_nil, map_encode_pump]

/-- C3: a classifier result outside the fixed label set of the endpoint makes
the handler return the HTTP 400 JSON error body without ever making a
generation (dispatch) call; conversely any emitted `intent` frame, and any
`type` field of a 200 response, carries the classifier label and that
label is a member of the fixed set. -/
theorem c3_label_membership (p : Option String) (l : String) (g : GenStream)
    (go : Except Unit Json) (gt : Except Unit String) :
    (l ∉ streamEnum →
      (streamObjectPOST (Except.ok p) (Except.ok l) g).1 =
          HttpResponse.json 400 soErr400 ∧
      ((streamObjectPOST (Except.ok p) (Except.ok l) g).2.all
          (fun c => !c.isGen)) = true) ∧
    (l ∉ smartEnum →
      (generateObjectSmartPOST (Except.ok p) (Except.ok l) go gt).1 =
          HttpResponse.json 400 gsErr400 ∧
      ((generateObjectSmartPOST (Except.ok p) (Except.ok l) go gt).2.all
          (fun c => !c.isGen)) = true) ∧
    (∀ sr, (streamObjectPOST (Except.ok p) (Except.ok l) g).1 =
        HttpResponse.stream sr →
      sr.frames.head? = some (Frame.intent l) ∧ l ∈ streamEnum) ∧
    (∀ t d, (generateObjectSmartPOST (Except.ok p) (Except.ok l) go gt).1 =
        HttpResponse.json 200 (Json.obj [("type", Json.str t), ("data", d)]) →
      t ∈ smartEnum ∧ t = l) := by
  refine ⟨?_, ?_, ?_, ?_⟩
  · intro hns
    simp only [streamEnum, List.mem_cons, List.not_mem_nil, or_false, not_or] at hns
    obtain ⟨h1, h2, h3, h4⟩ := hns
    rw [so_unknown p g l h1 h2 h3 h4]
    exact ⟨rfl, rfl⟩
  · intro hns
    simp only [smartEnum, List.mem_cons, List.not_mem_nil, or_false, not_or] at hns
    obtain ⟨h1, h2, h3, h4⟩ := hns
    rw [gs_unknown p go gt l h1 h2 h3 h4]
    exact ⟨rfl, rfl⟩
  · intro sr h
    by_cases hmem : l ∈ streamEnum
    · have hresp := congrArg Prod.fst (so_dispatch p g l hmem)
      rw [hresp] at h
      have hsr : relay l g = sr := by
        injection h
      rw [← hsr]
      exact ⟨relay_head l g, hmem⟩
    · simp only [streamEnum, List.mem_cons, List.not_mem_nil, or_false, not_or] at hmem
      obtain ⟨h1, h2, h3, h4⟩ := hmem
      have hresp := congrArg Prod.fst (so_unknown p g l h1 h2 h3 h4)
      rw [hresp] at h
      exact absurd h (by simp)
  · intro t d h
    by_cases h1 : l = "recipe"
    · subst h1
      cases go with
      | ok o =>
        have hresp := congrArg Prod.fst (gs_obj_ok p o gt "recipe" (by decide))
        rw [hresp] at h
        simp only [HttpResponse.json.injEq, Json.obj.injEq, List.cons.injEq,
          Prod.mk.injEq, Json.str.injEq, true_and, eq_self_iff_true] at h
        have heq := h.1
        subst heq
        exact ⟨by decide, rfl⟩
      | error e =>
        have hresp := congrArg Prod.fst (gs_obj_err p e gt "recipe" (by decide))
        rw [hresp] at h
        exact absurd h (by simp)
    by_cases h2 : l = "person"
    · subst h2
      cases go with
      | ok o =>
        have hresp := congrArg Prod.fst (gs_obj_ok p o gt "person" (by decide))
        rw [hresp] at h
        simp only [HttpResponse.json.injEq, Json.obj.injEq, List.cons.injEq,
          Prod.mk.injEq, Json.str.injEq, true_and, eq_self_iff_true] at h
        have heq := h.1
        subst heq
        exact ⟨by decide, rfl⟩
      | error e =>
        have hresp := congrArg Prod.fst (gs_obj_err p e gt "person" (by decide))
        rw [hresp] at h
        exact absurd h (by simp)
    by_cases h3 : l = "general-question"
    · subst h3
      cases gt with
      | ok t2 =>
        have hresp := congrArg Prod.fst (gs_gq p go (Except.ok t2))
        rw [hresp] at h
        simp only [HttpResponse.json.injEq, Json.obj.injEq, List.cons.injEq,
          Prod.mk.injEq, Json.str.injEq, true_and, eq_self_iff_true] at h
        have heq := h.1
        subst heq
        exact ⟨by decide, rfl⟩
      | error e =>
        have hresp := congrArg Prod.fst (gs_gq p go (Except.error e))
        rw [hresp] at h
        exact absurd h (by simp)
    by_cases h4 : l = "product"
    · subst h4
      cases go with
      | ok o =>
        have hresp := congrArg Prod.fst (gs_obj_ok p o gt "product" (by decide))
        rw [hresp] at h
        simp only [HttpResponse.json.injEq, Json.obj.injEq, List.cons.injEq,
          Prod.mk.injEq, Json.str.injEq, true_and, eq_self_iff_true] at h
        have heq := h.1
        subst heq
        exact ⟨by decide, rfl⟩
      | error e =>
        have hresp := congrArg Prod.fst (gs_obj_err p e gt "product" (by decide))
        rw [hresp] at h
        exact absurd h (by simp)
    have hresp := congrArg Prod.fst (gs_unknown p go gt l h1 h2 h3 h4)
    rw [hresp] at h
    exact absurd h (by simp)

/-- C3 witness: the unregistered label pizza yields HTTP 400 on both
endpoints. -/
theorem c3_label_membership_witness :
    (streamObjectPOST (Except.ok (some "hi")) (Except.ok "pizza")
        ⟨[], false⟩).1 = HttpResponse.json 400 soErr400 ∧
    (generateObjectSmartPOST (Except.ok (some "hi")) (Except.ok "pizza")
        (Except.ok Json.null) (Except.ok "x")).1 = HttpResponse.json 400 gsErr400 :=
  ⟨((c3_label_membership (some "hi") "pizza" ⟨[], false⟩ (Except.ok Json.null)
      (Except.ok "x")).1 (by decide)).1,
   ((c3_label_membership (some "hi") "pizza" ⟨[], false⟩ (Except.ok Json.null)
      (Except.ok "x")).2.1 (by decide)).1⟩

/-- C4 counterexample: at a concrete request whose classification call
fails, both endpoints return HTTP 500 — not the HTTP 400 JSON body (nor a
terminal error frame) the claim states. -/
theorem c4_counterexample :
    (streamObjectPOST (Except.ok (some "hello")) (Except.error ())
        ⟨[], false⟩).1 = HttpResponse.json 500 soErr500 ∧
    (generateObjectSmartPOST (Except.ok (some "hello")) (Except.error ())
        (Except.ok Json.null) (Except.ok "x")).1 =
      HttpResponse.json 500 gsErr500 ∧
    (500 : Nat) ≠ 400 :=
  ⟨rfl, rfl, by decide⟩

/-- C4 (amended): a failing classification call is propagated to the
caller as an HTTP 500 JSON error body (the catch-all of the endpoints), and the
classification is not retried — the backend trace holds exactly the one
classification call. -/
theorem c4_classifier_failure_500_no_retry (p : Option String) (g : GenStream)
    (go : Except Unit Json) (gt : Except Unit String) :
    streamObjectPOST (Except.ok p) (Except.error ()) g =
      (HttpResponse.json 500 soErr500,
       [BackendCall.classify streamEnum (soClassifierPrompt p)]) ∧
    generateObjectSmartPOST (Except.ok p) (Except.error ()) go gt =
      (HttpResponse.json 500 gsErr500,
       [BackendCall.classify smartEnum (gsClassifierPrompt p)]) ∧
    countClassify [BackendCall.classify streamEnum (soClassifierPrompt p)] = 1 ∧
    countClassify [BackendCall.classify smartEnum (gsClassifierPrompt p)] = 1 :=
  ⟨rfl, rfl, rfl, rfl⟩

/-- C5: every `generate-object-smart` response is either HTTP 200 with a
body of shape with a type field holding a registered label and a
data field, or HTTP 400/500 with an error body of shape with a single
string-valued error field. -/
theorem c5_smart_response_shape (body : Except Unit (Option String))
    (cls : Except Unit String) (go : Except Unit Json)
    (gt : Except Unit String) :
    (∃ l d, l ∈ smartEnum ∧
      (generateObjectSmartPOST body cls go gt).1 =
        HttpResponse.json 200 (Json.obj [("type", Json.str l), ("data", d)])) ∨
    (∃ s, (generateObjectSmartPOST body cls go gt).1 =
            HttpResponse.json 400 (Json.obj [("error", Json.str s)]) ∨
          (generateObjectSmartPOST body cls go gt).1 =
            HttpResponse.json 500 (Json.obj [("error", Json.str s)])) := by
  cases body with
  | error e => exact Or.inr ⟨"Failed to generate response", Or.inr rfl⟩
  | ok p =>
    cases cls with
    | error e => exact Or.inr ⟨"Failed to generate response", Or.inr rfl⟩
    | ok l =>
      by_cases h1 : l = "recipe"
      · subst h1
        cases go with
        | ok o =>
          exact Or.inl ⟨"recipe", o, by decide,
            congrArg Prod.fst (gs_obj_ok p o gt "recipe" (by decide))⟩
        | error e =>
          exact Or.inr ⟨"Failed to generate response", Or.inr
            (congrArg Prod.fst (gs_obj_err p e gt "recipe" (by decide)))⟩
      by_cases h2 : l = "person"
      · subst h2
        cases go with
        | ok o =>
          exact Or.inl ⟨"person", o, by decide,
            congrArg Prod.fst (gs_obj_ok p o gt "person" (by decide))⟩
        | error e =>
          exact Or.inr ⟨"Failed to generate response", Or.inr
            (congrArg Prod.fst (gs_obj_err p e gt "person" (by decide)))⟩
      by_cases h3 : l = "general-question"
      · subst h3
        cases gt with
        | ok t =>
          exact Or.inl ⟨"general-question", Json.obj [("answer", Json.str t)],
            by decide, congrArg Prod.fst (gs_gq p go (Except.ok t))⟩
        | error e =>
          exact Or.inr ⟨"Failed to generate response", Or.inr
            (congrArg Prod.fst (gs_gq p go (Except.error e)))⟩
      by_cases h4 : l = "product"
      · subst h4
        cases go with
        | ok o =>
          exact Or.inl ⟨"product", o, by decide,
            congrArg Prod.fst (gs_obj_ok p o gt "product" (by decide))⟩
        | error e =>
          exact Or.inr ⟨"Failed to generate response", Or.inr
            (congrArg Prod.fst (gs_obj_err p e gt "product" (by decide)))⟩
      exact Or.inr ⟨"Could not determine intent", Or.inl
        (congrArg Prod.fst (gs_unknown p go gt l h1 h2 h3 h4))⟩

instance refinesDec : DecidableRel Refines :=
  fun a b => inferInstanceAs (Decidable (refinesB a b = true))

/-- C7: the relay preserves the generator refinement invariant and
final-object validity. Under the contract of the external generator (spec
sections 3, 4.3: successive snapshots are superset-refinements, and the
final snapshot satisfies the schema of the dispatched label), the relayed
`partial`-frame payloads form the same refinement chain and their last
element satisfies the schema registered for the emitted label. -/
theorem c7_monotone_refinement (l : String) (g : GenStream) (v : Json → Bool)
    (hv : streamSchemaFor l = some v)
    (hchain : List.Chain' Refines g.partials)
    (hlast : ∀ x ∈ g.partials.getLast?, v x = true) :
    List.Chain' Refines (partialObjects (relay l g).frames) ∧
    ∃ w, streamSchemaFor l = some w ∧
      ∀ x ∈ (partialObjects (relay l g).frames).getLast?, w x = true := by
  rw [partialObjects_relay]
  exact ⟨hchain, v, hv, hlast⟩

/-- An early `recipe` snapshot (only `name` and `cuisine` populated). -/
def sampleRecipeEarly : Json :=
  .obj [("recipe", .obj [("name", .str "Thai Red Curry"), ("cuisine", .str "Thai")])]

/-- A final `recipe` snapshot satisfying the full recipe schema. -/
def sampleRecipeFull : Json :=
  .obj [("recipe", .obj
    [("name", .str "Thai Red Curry"),
     ("cuisine", .str "Thai"),
     ("difficulty", .str "medium"),
     ("prepTime", .str "15 minutes"),
     ("cookTime", .str "30 minutes"),
     ("servings", .num 4),
     ("ingredients", .arr
       [.obj [("name", .str "red curry paste"), ("amount", .str "2"),
              ("unit", .str "tbsp")]]),
     ("steps", .arr [.str "Fry the paste", .str "Add coconut milk"]),
     ("tags", .arr [.str "spicy"])])]

/-- C7 witness: a concrete refining two-snapshot `recipe` stream. -/
theorem c7_monotone_refinement_witness :
    List.Chain' Refines
      (partialObjects (relay "recipe"
        ⟨[sampleRecipeEarly, sampleRecipeFull], false⟩).frames) ∧
    ∃ w, streamSchemaFor "recipe" = some w ∧
      ∀ x ∈ (partialObjects (relay "recipe"
          ⟨[sampleRecipeEarly, sampleRecipeFull], false⟩).frames).getLast?,
        w x = true :=
  c7_monotone_refinement "recipe" ⟨[sampleRecipeEarly, sampleRecipeFull], false⟩
    recipeValid rfl
    (by
      refine List.chain'_cons.mpr ⟨?_, ?_⟩
      · decide
      · exact List.chain'_singleton _)
    (by
      intro x hx
      have hlast : ([sampleRecipeEarly, sampleRecipeFull].getLast?) =
          some sampleRecipeFull := rfl
      rw [hlast, Option.mem_def] at hx
      injection hx with hx
      rw [← hx]
      decide)

/-- C8: with a parsed body, each handler makes exactly one enum-constrained
classification call — it is the first backend call, it carries the
candidate label list of the endpoint, and no further classification call occurs
anywhere in the request (no retry), for every classification outcome. -/
theorem c8_exactly_one_classifier_call (p : Option String)
    (cls : Except Unit String) (g : GenStream) (go : Except Unit Json)
    (gt : Except Unit String) :
    countClassify (streamObjectPOST (Except.ok p) cls g).2 = 1 ∧
    (streamObjectPOST (Except.ok p) cls g).2.head? =
      some (BackendCall.classify streamEnum (soClassifierPrompt p)) ∧
    countClassify (generateObjectSmartPOST (Except.ok p) cls go gt).2 = 1 ∧
    (generateObjectSmartPOST (Except.ok p) cls go gt).2.head? =
      some (BackendCall.classify smartEnum (gsClassifierPrompt p)) := by
  refine ⟨?_, so_head p cls g, ?_, gs_head p cls go gt⟩
  · cases cls with
    | error e => rfl
    | ok l =>
      by_cases hmem : l ∈ streamEnum
      · rw [congrArg Prod.snd (so_dispatch p g l hmem)]
        rfl
      · simp only [streamEnum, List.mem_cons, List.not_mem_nil, or_false,
          not_or] at hmem
        obtain ⟨h1, h2, h3, h4⟩ := hmem
        rw [congrArg Prod.snd (so_unknown p g l h1 h2 h3 h4)]
        rfl
  · cases cls with
    | error e => rfl
    | ok l =>
      by_cases h1 : l = "recipe"
      · subst h1
        cases go with
        | ok o => rw [congrArg Prod.snd (gs_obj_ok p o gt "recipe" (by decide))]; rfl
        | error e => rw [congrArg Prod.snd (gs_obj_err p e gt "recipe" (by decide))]; rfl
      by_cases h2 : l = "person"
      · subst h2
        cases go with
        | ok o => rw [congrArg Prod.snd (gs_obj_ok p o gt "person" (by decide))]; rfl
        | error e => rw [congrArg Prod.snd (gs_obj_err p e gt "person" (by decide))]; rfl
      by_cases h3 : l = "general-question"
      · subst h3
        rw [congrArg Prod.snd (gs_gq p go gt)]
        rfl
      by_cases h4 : l = "product"
      · subst h4
        cases go with
        | ok o => rw [congrArg Prod.snd (gs_obj_ok p o gt "product" (by decide))]; rfl
        | error e => rw [congrArg Prod.snd (gs_obj_err p e gt "product" (by decide))]; rfl
      rw [congrArg Prod.snd (gs_unknown p go gt l h1 h2 h3 h4)]
      rfl

/-- C9: neither endpoint validates the prompt. With a body whose prompt
property is absent or the empty string, the handler still proceeds to the
classification call — whose prompt text directly interpolates the JS
value (`undefined` stringifies to the text undefined, the empty string to
nothing) — and any 400 response can only arise from an unregistered
classifier label, never from prompt validation. -/
theorem c9_no_prompt_validation (p : Option String) (cls : Except Unit String)
    (g : GenStream) (go : Except Unit Json) (gt : Except Unit String)
    (hp : p = none ∨ p = some "") :
    (streamObjectPOST (Except.ok p) cls g).2.head? =
      some (BackendCall.classify streamEnum (soClassifierPrompt p)) ∧
    (generateObjectSmartPOST (Except.ok p) cls go gt).2.head? =
      some (BackendCall.classify smartEnum (gsClassifierPrompt p)) ∧
    jsInterp p = (if p = none then "undefined" else "") ∧
    (∀ b, (streamObjectPOST (Except.ok p) cls g).1 = HttpResponse.json 400 b →
      ∃ l, cls = Except.ok l ∧ l ∉ streamEnum) ∧
    (∀ b, (generateObjectSmartPOST (Except.ok p) cls go gt).1 =
        HttpResponse.json 400 b →
      ∃ l, cls = Except.ok l ∧ l ∉ smartEnum) := by
  refine ⟨so_head p cls g, gs_head p cls go gt, ?_, ?_, ?_⟩
  · rcases hp with rfl | rfl <;> rfl
  · intro b h
    cases cls with
    | error e =>
      have hresp : (streamObjectPOST (Except.ok p) (Except.error e) g).1 =
          HttpResponse.json 500 soErr500 := rfl
      rw [hresp] at h
      exact absurd h (by simp)
    | ok l =>
      by_cases hmem : l ∈ streamEnum
      · rw [congrArg Prod.fst (so_dispatch p g l hmem)] at h
        exact absurd h (by simp)
      · exact ⟨l, rfl, hmem⟩
  · intro b h
    cases cls with
    | error e =>
      have hresp : (generateObjectSmartPOST (Except.ok p) (Except.error e)
          go gt).1 = HttpResponse.json 500 gsErr500 := rfl
      rw [hresp] at h
      exact absurd h (by simp)
    | ok l =>
      by_cases h1 : l = "recipe"
      · subst h1
        cases go with
        | ok o =>
          rw [congrArg Prod.fst (gs_obj_ok p o gt "recipe" (by decide))] at h
          exact absurd h (by simp)
        | error e =>
          rw [congrArg Prod.fst (gs_obj_err p e gt "recipe" (by decide))] at h
          exact absurd h (by simp)
      by_cases h2 : l = "person"
      · subst h2
        cases go with
        | ok o =>
          rw [congrArg Prod.fst (gs_obj_ok p o gt "person" (by decide))] at h
          exact absurd h (by simp)
        | error e =>
          rw [congrArg Prod.fst (gs_obj_err p e gt "person" (by decide))] at h
          exact absurd h (by simp)
      by_cases h3 : l = "general-question"
      · subst h3
        cases gt with
        | ok t =>
          rw [congrArg Prod.fst (gs_gq p go (Except.ok t))] at h
          exact absurd h (by simp)
        | error e =>
          rw [congrArg Prod.fst (gs_gq p go (Except.error e))] at h
          exact absurd h (by simp)
      by_cases h4 : l = "product"
      · subst h4
        cases go with
        | ok o =>
          rw [congrArg Prod.fst (gs_obj_ok p o gt "product" (by decide))] at h
          exact absurd h (by simp)
        | error e =>
          rw [congrArg Prod.fst (gs_obj_err p e gt "product" (by decide))] at h
          exact absurd h (by simp)
      refine ⟨l, rfl, ?_⟩
      simp [smartEnum, h1, h2, h3, h4]

/-- C9 witness: a body with no prompt property still reaches
classification, with the text undefined interpolated. -/
theorem c9_no_prompt_validation_witness :
    (streamObjectPOST (Except.ok none) (Except.ok "recipe") ⟨[], false⟩).2.head? =
      some (BackendCall.classify streamEnum (soClassifierPrompt none)) ∧
    (generateObjectSmartPOST (Except.ok none) (Except.ok "recipe")
        (Except.ok Json.null) (Except.ok "x")).2.head? =
      some (BackendCall.classify smartEnum (gsClassifierPrompt none)) ∧
    jsInterp none = (if (none : Option String) = none then "undefined" else "") :=
  ⟨(c9_no_prompt_validation none (Except.ok "recipe") ⟨[], false⟩
      (Except.ok Json.null) (Except.ok "x") (Or.inl rfl)).1,
   (c9_no_prompt_validation none (Except.ok "recipe") ⟨[], false⟩
      (Except.ok Json.null) (Except.ok "x") (Or.inl rfl)).2.1,
   (c9_no_prompt_validation none (Except.ok "recipe") ⟨[], false⟩
      (Except.ok Json.null) (Except.ok "x") (Or.inl rfl)).2.2.1⟩

/-- C10: the `general-question` label is the one dispatch target with no
structured schema: its branch calls plain text generation (`textGen`, no
`objectGen` call) and returns HTTP 200 with the answer wrapped as free
text, while every other registered label dispatches a schema-bound
`generateObject` call. -/
theorem c10_general_question_free_text (p : Option String) (t : String)
    (go : Except Unit Json) :
    (generateObjectSmartPOST (Except.ok p) (Except.ok "general-question")
        go (Except.ok t)).1 =
      HttpResponse.json 200
        (Json.obj [("type", Json.str "general-question"),
                   ("data", Json.obj [("answer", Json.str t)])]) ∧
    (generateObjectSmartPOST (Except.ok p) (Except.ok "general-question")
        go (Except.ok t)).2 =
      [BackendCall.classify smartEnum (gsClassifierPrompt p),
       BackendCall.textGen] ∧
    (∀ l, l ∈ smartEnum → l ≠ "general-question" → ∀ go2 gt2,
      BackendCall.objectGen l ∈
        (generateObjectSmartPOST (Except.ok p) (Except.ok l) go2 gt2).2) := by
  refine ⟨congrArg Prod.fst (gs_gq p go (Except.ok t)),
    congrArg Prod.snd (gs_gq p go (Except.ok t)), ?_⟩
  intro l hl hne go2 gt2
  fin_cases hl
  · cases go2 with
    | ok o => rw [congrArg Prod.snd (gs_obj_ok p o gt2 "recipe" (by decide))]; simp
    | error e => rw [congrArg Prod.snd (gs_obj_err p e gt2 "recipe" (by decide))]; simp
  · cases go2 with
    | ok o => rw [congrArg Prod.snd (gs_obj_ok p o gt2 "person" (by decide))]; simp
    | error e => rw [congrArg Prod.snd (gs_obj_err p e gt2 "person" (by decide))]; simp
  · exact absurd rfl hne
  · cases go2 with
    | ok o => rw [congrArg Prod.snd (gs_obj_ok p o gt2 "product" (by decide))]; simp
    | error e => rw [congrArg Prod.snd (gs_obj_err p e gt2 "product" (by decide))]; simp

/-- C10 witness: concrete general-question request (plain text) and a
concrete schema-bound dispatch (`recipe`). -/
theorem c10_general_question_free_text_witness :
    (generateObjectSmartPOST (Except.ok (some "What is the capital of France?"))
        (Except.ok "general-question") (Except.ok Json.null)
        (Except.ok "Paris")).1 =
      HttpResponse.json 200
        (Json.obj [("type", Json.str "general-question"),
                   ("data", Json.obj [("answer", Json.str "Paris")])]) ∧
    BackendCall.objectGen "recipe" ∈
      (generateObjectSmartPOST (Except.ok (some "What is the capital of France?"))
        (Except.ok "recipe") (Except.ok Json.null) (Except.ok "x")).2 :=
  ⟨(c10_general_question_free_text (some "What is the capital of France?")
      "Paris" (Except.ok Json.null)).1,
   (c10_general_question_free_text (some "What is the capital of France?")
      "Paris" (Except.ok Json.null)).2.2 "recipe" (by decide) (by decide)
      (Except.ok Json.null) (Except.ok "x")⟩

end SObj
